import Mathlib

/-!
Verification of the adaptive-threshold football monitoring core
(betradarx-botoficial): a shallow embedding of the pressure scorer,
the alert decision rule, the outcome verifier and the daily threshold
adjuster, with theorems settling the specified properties.

Numbers are modelled as exact rationals (ℚ); database counts as ℕ/ℤ.
-/

/-! ## Pressure scorer (src/mastra/tools/calculatePressure.ts) -/

/-- A statistic value as delivered by the match feed: a number,
a string, or null/undefined. -/
inductive StatValue where
  | num (q : ℚ)
  | str (s : String)
  | null
deriving DecidableEq

/-- One (statistic-name, value) entry of a team's statistics array. -/
structure StatItem where
  type : String
  value : StatValue
deriving DecidableEq

/-- One team's statistics object (the `statistics` array). -/
structure TeamStats where
  statistics : List StatItem
deriving DecidableEq

/-- JS `toLowerCase` on one character, for the ASCII range the statistic
names use: map A..Z to a..z, leave everything else unchanged. -/
def lowerChar (c : Char) : Char :=
  if c.toNat ≥ 65 ∧ c.toNat ≤ 90 then Char.ofNat (c.toNat + 32) else c

/-- JS `toLowerCase` on a string, as its character list. -/
def lowerStr (s : String) : List Char := s.data.map lowerChar

/-- JS `parseInt(s, 10)`: skip leading whitespace, optional sign,
then the longest leading digit run; `none` models NaN (no digits). -/
def parseIntStr (s : String) : Option ℤ :=
  let cs := s.data.dropWhile (fun c => c = ' ' || c = '\t' || c = '\n' || c = '\r')
  let signAndRest : ℤ × List Char :=
    match cs with
    | '-' :: rest => (-1, rest)
    | '+' :: rest => (1, rest)
    | _ => (1, cs)
  let ds := signAndRest.2.takeWhile Char.isDigit
  if ds.isEmpty then none
  else some (signAndRest.1 * (ds.foldl (fun acc c => acc * 10 + (c.toNat - 48)) 0 : ℤ))

/-- Value extraction for a matched statistic item: null/undefined count 0,
numbers pass through, strings go through `parseInt(val, 10) || 0`. -/
def statItemValue : StatValue → ℚ
  | StatValue.null => 0
  | StatValue.num q => q
  | StatValue.str s => ((parseIntStr s).getD 0 : ℤ)

/-- The loop body of `getStatValue`: first item whose `type` matches the
key case-insensitively yields its value; no match yields 0. -/
def lookupStat (key : String) : List StatItem → ℚ
  | [] => 0
  | item :: rest =>
      if lowerStr item.type = lowerStr key then statItemValue item.value
      else lookupStat key rest

/-- `getStatValue(team, key)` from calculatePressure.ts. -/
def getStatValue (team : TeamStats) (key : String) : ℚ :=
  lookupStat key team.statistics

/-- The output record of the calculate-pressure tool. -/
structure PressureResult where
  pressHome : ℚ
  pressAway : ℚ
  pressTotal : ℚ
  pressDiff : ℚ
  attacksHome : ℚ
  attacksAway : ℚ
  shotsHome : ℚ
  shotsAway : ℚ
  cornersHome : ℚ
  cornersAway : ℚ
  success : Bool
  error : Option String
deriving DecidableEq

/-- The zeroed failure record returned when fewer than two team entries
are supplied. -/
def insufficientDataResult : PressureResult :=
  { pressHome := 0, pressAway := 0, pressTotal := 0, pressDiff := 0
  , attacksHome := 0, attacksAway := 0, shotsHome := 0, shotsAway := 0
  , cornersHome := 0, cornersAway := 0
  , success := false, error := some "Insufficient statistics data" }

/-- `calculatePressure.execute`: for fewer than 2 team entries return the
zeroed failure record; otherwise extract the six stats from the first
(home) and second (away) entries and compute the pressure metrics. -/
def calculatePressure : List TeamStats → PressureResult
  | homeStats :: awayStats :: _ =>
      let attacksHome := getStatValue homeStats "Total attacks"
      let attacksAway := getStatValue awayStats "Total attacks"
      let shotsHome := getStatValue homeStats "Shots on Goal"
      let shotsAway := getStatValue awayStats "Shots on Goal"
      let cornersHome := getStatValue homeStats "Corner Kicks"
      let cornersAway := getStatValue awayStats "Corner Kicks"
      let pressHome := attacksHome * 0.5 + shotsHome * 1.5 + cornersHome * 0.8
      let pressAway := attacksAway * 0.5 + shotsAway * 1.5 + cornersAway * 0.8
      { pressHome := pressHome, pressAway := pressAway
      , pressTotal := pressHome + pressAway
      , pressDiff := |pressHome - pressAway|
      , attacksHome := attacksHome, attacksAway := attacksAway
      , shotsHome := shotsHome, shotsAway := shotsAway
      , cornersHome := cornersHome, cornersAway := cornersAway
      , success := true, error := none }
  | _ => insufficientDataResult

/-- The home-team entry of end-to-end scenario A:
attacks 10, shots on goal 3, corners 5. -/
def scenarioAHome : TeamStats :=
  ⟨[ ⟨"Total attacks", StatValue.num 10⟩
   , ⟨"Shots on Goal", StatValue.num 3⟩
   , ⟨"Corner Kicks", StatValue.num 5⟩ ]⟩

/-- The away-team entry of end-to-end scenario A:
attacks 4, shots on goal 1, corners 2. -/
def scenarioAAway : TeamStats :=
  ⟨[ ⟨"Total attacks", StatValue.num 4⟩
   , ⟨"Shots on Goal", StatValue.num 1⟩
   , ⟨"Corner Kicks", StatValue.num 2⟩ ]⟩

/-- C1: for every snapshot with at least two team entries, the pressure of
each team is attacks*0.5 + shotsOnGoal*1.5 + corners*0.8 over the extracted
statistics, pressTotal is exactly pressHome + pressAway, and pressDiff is
exactly |pressHome - pressAway|. -/
theorem calculatePressure_formula (h a : TeamStats) (rest : List TeamStats) :
    (calculatePressure (h :: a :: rest)).pressHome
      = getStatValue h "Total attacks" * 0.5 + getStatValue h "Shots on Goal" * 1.5
        + getStatValue h "Corner Kicks" * 0.8
  ∧ (calculatePressure (h :: a :: rest)).pressAway
      = getStatValue a "Total attacks" * 0.5 + getStatValue a "Shots on Goal" * 1.5
        + getStatValue a "Corner Kicks" * 0.8
  ∧ (calculatePressure (h :: a :: rest)).pressTotal
      = (calculatePressure (h :: a :: rest)).pressHome
        + (calculatePressure (h :: a :: rest)).pressAway
  ∧ (calculatePressure (h :: a :: rest)).pressDiff
      = |(calculatePressure (h :: a :: rest)).pressHome
          - (calculatePressure (h :: a :: rest)).pressAway| :=
  ⟨rfl, rfl, rfl, rfl⟩

/-- C5: on a snapshot with fewer than 2 team entries the scorer returns the
discriminated failure record: success is false, the error is the
insufficient-data message, and every metric is zero. -/
theorem calculatePressure_insufficient (stats : List TeamStats)
    (hlen : stats.length < 2) :
    calculatePressure stats = insufficientDataResult
  ∧ (calculatePressure stats).success = false
  ∧ (calculatePressure stats).error = some "Insufficient statistics data"
  ∧ (calculatePressure stats).pressTotal = 0
  ∧ (calculatePressure stats).pressDiff = 0 := by
  match stats with
  | [] => exact ⟨rfl, rfl, rfl, rfl, rfl⟩
  | [_] => exact ⟨rfl, rfl, rfl, rfl, rfl⟩
  | _ :: _ :: t => exact absurd hlen (by simp only [List.length_cons]; omega)

/-- Witness for C5 at the empty snapshot. -/
theorem calculatePressure_insufficient_witness :
    calculatePressure [] = insufficientDataResult :=
  (calculatePressure_insufficient [] (by decide)).1

lemma scenarioAHome_attacks : getStatValue scenarioAHome "Total attacks" = 10 := by decide

lemma scenarioAHome_shots : getStatValue scenarioAHome "Shots on Goal" = 3 := by decide

lemma scenarioAHome_corners : getStatValue scenarioAHome "Corner Kicks" = 5 := by decide

lemma scenarioAAway_attacks : getStatValue scenarioAAway "Total attacks" = 4 := by decide

lemma scenarioAAway_shots : getStatValue scenarioAAway "Shots on Goal" = 1 := by decide

lemma scenarioAAway_corners : getStatValue scenarioAAway "Corner Kicks" = 2 := by decide

lemma scenarioA_pressHome :
    (calculatePressure [scenarioAHome, scenarioAAway]).pressHome = 13.5 := by
  simp only [calculatePressure, scenarioAHome_attacks, scenarioAHome_shots,
    scenarioAHome_corners, scenarioAAway_attacks, scenarioAAway_shots, scenarioAAway_corners]
  norm_num

lemma scenarioA_pressAway :
    (calculatePressure [scenarioAHome, scenarioAAway]).pressAway = 5.1 := by
  simp only [calculatePressure, scenarioAHome_attacks, scenarioAHome_shots,
    scenarioAHome_corners, scenarioAAway_attacks, scenarioAAway_shots, scenarioAAway_corners]
  norm_num

lemma scenarioA_pressTotal :
    (calculatePressure [scenarioAHome, scenarioAAway]).pressTotal = 18.6 := by
  simp only [calculatePressure, scenarioAHome_attacks, scenarioAHome_shots,
    scenarioAHome_corners, scenarioAAway_attacks, scenarioAAway_shots, scenarioAAway_corners]
  norm_num

lemma scenarioA_pressDiff :
    (calculatePressure [scenarioAHome, scenarioAAway]).pressDiff = 8.4 := by
  simp only [calculatePressure, scenarioAHome_attacks, scenarioAHome_shots,
    scenarioAHome_corners, scenarioAAway_attacks, scenarioAAway_shots, scenarioAAway_corners]
  norm_num

/-- Counterexample to C8 as stated: on scenario A's snapshot the scorer
does not return pressHome 14.5, pressAway 5.1, pressTotal 19.6,
pressDiff 9.4 (its pressHome is 13.5, not 14.5). -/
theorem scenarioA_claim_false :
    ¬ ((calculatePressure [scenarioAHome, scenarioAAway]).pressHome = 14.5
      ∧ (calculatePressure [scenarioAHome, scenarioAAway]).pressAway = 5.1
      ∧ (calculatePressure [scenarioAHome, scenarioAAway]).pressTotal = 19.6
      ∧ (calculatePressure [scenarioAHome, scenarioAAway]).pressDiff = 9.4) := by
  intro h
  rw [scenarioA_pressHome] at h
  exact absurd h.1 (by norm_num)

/-- C8 amended: on scenario A's snapshot the scorer returns
pressHome = 10*0.5 + 3*1.5 + 5*0.8 = 13.5, pressAway = 5.1,
pressTotal = 18.6 and pressDiff = 8.4. -/
theorem scenarioA_values :
    (calculatePressure [scenarioAHome, scenarioAAway]).pressHome = 13.5
  ∧ (calculatePressure [scenarioAHome, scenarioAAway]).pressAway = 5.1
  ∧ (calculatePressure [scenarioAHome, scenarioAAway]).pressTotal = 18.6
  ∧ (calculatePressure [scenarioAHome, scenarioAAway]).pressDiff = 8.4 :=
  ⟨scenarioA_pressHome, scenarioA_pressAway, scenarioA_pressTotal, scenarioA_pressDiff⟩

/-! ## Daily analysis / threshold adjuster (performDailyAnalysis) -/

/-- `accuracy = alertsSent > 0 ? (goalsConfirmed / alertsSent) * 100 : 0`. -/
def accuracy (goalsConfirmed alertsSent : ℕ) : ℚ :=
  if alertsSent > 0 then ((goalsConfirmed : ℚ) / (alertsSent : ℚ)) * 100 else 0

/-- The adjustment-factor if/else-if chain of performDailyAnalysis:
-0.05 when accuracy > 85, +0.05 when accuracy < 50 and alertsSent >= 3,
0 otherwise. -/
def adjustmentFactor (goalsConfirmed alertsSent : ℕ) : ℚ :=
  if accuracy goalsConfirmed alertsSent > 85 then -0.05
  else if accuracy goalsConfirmed alertsSent < 50 ∧ alertsSent ≥ 3 then 0.05
  else 0

/-- JS `Math.max(lo, Math.min(hi, x))` on rationals. -/
def clampQ (lo hi x : ℚ) : ℚ := max lo (min hi x)

/-- JS `Math.max(lo, Math.min(hi, x))` on integers. -/
def clampZ (lo hi x : ℤ) : ℤ := max lo (min hi x)

/-- The singleton thresholds row of the football_thresholds table. -/
structure ThresholdRow where
  thresholdTotal : ℚ
  thresholdDiff : ℚ
  escanteios10min : ℤ
deriving DecidableEq

/-- The new (recommended) thresholds of performDailyAnalysis before any
rounding: multiply total and diff by (1 + factor) and clamp to [50,120]
and [10,30]; escanteios is only clamped to [2,6], the factor is never
applied to it. -/
def recommendedThresholdsRaw (goalsConfirmed alertsSent : ℕ) (row : ThresholdRow) :
    ThresholdRow :=
  let f := adjustmentFactor goalsConfirmed alertsSent
  { thresholdTotal := clampQ 50 120 (row.thresholdTotal * (1 + f))
  , thresholdDiff := clampQ 10 30 (row.thresholdDiff * (1 + f))
  , escanteios10min := clampZ 2 6 row.escanteios10min }

/-- JS `Math.round`: round half toward positive infinity. -/
def jsRound (q : ℚ) : ℤ := ⌊q + 1 / 2⌋

/-- JS `Math.round(x * 100) / 100`: round to 2 decimal places. -/
def round2 (q : ℚ) : ℚ := (jsRound (q * 100) : ℚ) / 100

/-- Rounding applied to the two rational thresholds of a row, as in the
returned recommendedThresholds object (escanteios10min stays an integer
and is not rounded). -/
def round2Row (row : ThresholdRow) : ThresholdRow :=
  { thresholdTotal := round2 row.thresholdTotal
  , thresholdDiff := round2 row.thresholdDiff
  , escanteios10min := row.escanteios10min }

/-- The caller-visible output of performDailyAnalysis (the fields the
claims are about). -/
structure AnalysisOutput where
  alertsSent : ℕ
  goalsConfirmed : ℕ
  accuracy : ℚ
  currentThresholds : ThresholdRow
  recommendedThresholds : ThresholdRow
  success : Bool

/-- performDailyAnalysis as a state transformer on the stored thresholds
row: compute the factor and the clamped new values, write them to the
store only when the factor is non-zero, and always return both the
current and the (rounded) recommended values. -/
def performDailyAnalysis (goalsConfirmed alertsSent : ℕ) (stored : ThresholdRow) :
    ThresholdRow × AnalysisOutput :=
  let f := adjustmentFactor goalsConfirmed alertsSent
  let recRow := recommendedThresholdsRaw goalsConfirmed alertsSent stored
  let newStore := if f ≠ 0 then recRow else stored
  (newStore,
   { alertsSent := alertsSent
   , goalsConfirmed := goalsConfirmed
   , accuracy := round2 (accuracy goalsConfirmed alertsSent)
   , currentThresholds := stored
   , recommendedThresholds := round2Row recRow
   , success := true })

/-- C2: accuracy is goalsConfirmed/alertsSent*100 (0 when alertsSent = 0),
the two guarded branches are mutually exclusive, and the factor is -0.05
when accuracy > 85, +0.05 when accuracy < 50 and alertsSent >= 3, and 0
otherwise. -/
theorem adjustmentFactor_branches (gc as : ℕ) :
    (0 < as → accuracy gc as = ((gc : ℚ) / (as : ℚ)) * 100)
  ∧ (as = 0 → accuracy gc as = 0)
  ∧ ¬ (accuracy gc as > 85 ∧ (accuracy gc as < 50 ∧ as ≥ 3))
  ∧ (accuracy gc as > 85 → adjustmentFactor gc as = -0.05)
  ∧ (accuracy gc as < 50 ∧ as ≥ 3 → adjustmentFactor gc as = 0.05)
  ∧ (¬ accuracy gc as > 85 → ¬ (accuracy gc as < 50 ∧ as ≥ 3) →
      adjustmentFactor gc as = 0) := by
  refine ⟨fun h => ?_, fun h => ?_, ?_, fun h => ?_, fun h => ?_, fun h1 h2 => ?_⟩
  · rw [accuracy, if_pos h]
  · subst h; rw [accuracy, if_neg (by omega)]
  · rintro ⟨h1, h2, -⟩; linarith
  · rw [adjustmentFactor, if_pos h]
  · rw [adjustmentFactor, if_neg (by rcases h with ⟨h1, -⟩; linarith), if_pos h]
  · rw [adjustmentFactor, if_neg h1, if_neg h2]

/-- Witness for C2: each branch fires at a concrete aggregate
(9/10 resolved gives 90%, 1/4 gives 25%, 7/10 gives 70%). -/
theorem adjustmentFactor_branches_witness :
    adjustmentFactor 9 10 = -0.05
  ∧ adjustmentFactor 1 4 = 0.05
  ∧ adjustmentFactor 7 10 = 0 := by
  refine ⟨(adjustmentFactor_branches 9 10).2.2.2.1 (by norm_num [accuracy]),
    (adjustmentFactor_branches 1 4).2.2.2.2.1 ⟨by norm_num [accuracy], by norm_num⟩,
    (adjustmentFactor_branches 7 10).2.2.2.2.2 (by norm_num [accuracy])
      (by rintro ⟨h, -⟩; norm_num [accuracy] at h)⟩

/-- C3: for every stored row and any accuracy in [0,100], the recommended
thresholdTotal lies in [50,120] and the recommended thresholdDiff lies in
[10,30], and the recommended escanteios10min does not depend on the
accuracy aggregate (the factor is never applied to it). -/
theorem recommendedThresholds_bounds (gc as : ℕ) (row : ThresholdRow)
    (h0 : 0 ≤ accuracy gc as) (h100 : accuracy gc as ≤ 100) :
    (50 ≤ (recommendedThresholdsRaw gc as row).thresholdTotal
      ∧ (recommendedThresholdsRaw gc as row).thresholdTotal ≤ 120)
  ∧ (10 ≤ (recommendedThresholdsRaw gc as row).thresholdDiff
      ∧ (recommendedThresholdsRaw gc as row).thresholdDiff ≤ 30)
  ∧ ∀ gc' as' : ℕ,
      (recommendedThresholdsRaw gc' as' row).escanteios10min
        = (recommendedThresholdsRaw gc as row).escanteios10min := by
  refine ⟨⟨?_, ?_⟩, ⟨?_, ?_⟩, fun _ _ => rfl⟩ <;>
    simp only [recommendedThresholdsRaw, clampQ]
  · exact le_max_left _ _
  · exact max_le (by norm_num) (min_le_left _ _)
  · exact le_max_left _ _
  · exact max_le (by norm_num) (min_le_left _ _)

/-- Witness for C3 at the default row and a 70% accuracy aggregate. -/
theorem recommendedThresholds_bounds_witness :
    50 ≤ (recommendedThresholdsRaw 7 10 ⟨70, 15, 3⟩).thresholdTotal :=
  (recommendedThresholds_bounds 7 10 ⟨70, 15, 3⟩ (by norm_num [accuracy])
    (by norm_num [accuracy])).1.1

/-- C6: when accuracy is in [50,85] the factor is 0, the store is not
written (the stored row is unchanged), a second immediate run leaves it
bit-identical, and the output still carries both the current and the
recommended values. -/
theorem performDailyAnalysis_idempotent (gc as : ℕ) (row : ThresholdRow)
    (h50 : 50 ≤ accuracy gc as) (h85 : accuracy gc as ≤ 85) :
    adjustmentFactor gc as = 0
  ∧ (performDailyAnalysis gc as row).1 = row
  ∧ (performDailyAnalysis gc as (performDailyAnalysis gc as row).1).1 = row
  ∧ (performDailyAnalysis gc as row).2.currentThresholds = row
  ∧ (performDailyAnalysis gc as row).2.recommendedThresholds
      = round2Row (recommendedThresholdsRaw gc as row) := by
  have hf : adjustmentFactor gc as = 0 := by
    rw [adjustmentFactor, if_neg (by linarith), if_neg (by rintro ⟨h, -⟩; linarith)]
  have h1 : (performDailyAnalysis gc as row).1 = row := by
    simp [performDailyAnalysis, hf]
  exact ⟨hf, h1, by rw [h1]; exact h1, rfl, rfl⟩

/-- Witness for C6 at the default row and a 70% accuracy aggregate. -/
theorem performDailyAnalysis_idempotent_witness :
    (performDailyAnalysis 7 10 ⟨70, 15, 3⟩).1 = ⟨70, 15, 3⟩ :=
  (performDailyAnalysis_idempotent 7 10 ⟨70, 15, 3⟩ (by norm_num [accuracy])
    (by norm_num [accuracy])).2.1

/-- C10: whenever the factor is non-zero the store receives the unrounded
clamped row, the returned recommendedThresholds are that row rounded to 2
decimal places, and there is an input where the returned recommendation
differs from the persisted value. -/
theorem performDailyAnalysis_rounding (gc as : ℕ) (row : ThresholdRow)
    (hf : adjustmentFactor gc as ≠ 0) :
    (performDailyAnalysis gc as row).1 = recommendedThresholdsRaw gc as row
  ∧ (performDailyAnalysis gc as row).2.recommendedThresholds
      = round2Row (performDailyAnalysis gc as row).1
  ∧ ∃ gc' as' : ℕ, ∃ row' : ThresholdRow,
      adjustmentFactor gc' as' ≠ 0
      ∧ (performDailyAnalysis gc' as' row').2.recommendedThresholds.thresholdTotal
          ≠ (performDailyAnalysis gc' as' row').1.thresholdTotal := by
  have h1 : (performDailyAnalysis gc as row).1 = recommendedThresholdsRaw gc as row := by
    simp [performDailyAnalysis, hf]
  refine ⟨h1, by rw [h1]; rfl, 1, 4, ⟨6667 / 100, 15, 3⟩, ?_, ?_⟩
  · norm_num [adjustmentFactor, accuracy]
  · have hf4 : adjustmentFactor 1 4 = 0.05 := by norm_num [adjustmentFactor, accuracy]
    have hclamp : clampQ 50 120 ((6667 / 100 : ℚ) * (1 + 0.05)) = 140007 / 2000 := by
      rw [clampQ, min_eq_right (by norm_num), max_eq_right (by norm_num)]
      norm_num
    simp only [performDailyAnalysis, recommendedThresholdsRaw, hf4, round2Row, round2, jsRound]
    rw [if_pos (by norm_num)]
    simp only [hclamp]
    norm_num

/-! ## Outcome verifier (verifyGoalOutcomes) -/

/-- The goals object of a fetched fixture; `none` models a null field,
defaulted to 0 by `goals?.home || 0`. -/
structure FixtureGoals where
  home : Option ℕ
  away : Option ℕ
deriving DecidableEq

/-- `totalGoalsNow = homeGoals + awayGoals` with null goals counted 0. -/
def totalGoalsNow (g : FixtureGoals) : ℕ :=
  g.home.getD 0 + g.away.getD 0

/-- `goalHappened = totalGoalsNow > goalsAtAlert`. -/
def goalHappened (g : FixtureGoals) (goalsAtAlert : ℕ) : Bool :=
  decide (totalGoalsNow g > goalsAtAlert)

/-- C4: the recorded outcome is exactly the strict comparison
totalGoalsNow > goalsAtAlert, a current total equal to the goals at alert
time resolves to false, and the record of scenario D (goalsAtAlert 1,
fetched score 2-0) resolves to true. -/
theorem goalHappened_strict (g : FixtureGoals) (ga : ℕ) :
    (goalHappened g ga = true ↔ totalGoalsNow g > ga)
  ∧ (totalGoalsNow g = ga → goalHappened g ga = false)
  ∧ goalHappened ⟨some 2, some 0⟩ 1 = true := by
  refine ⟨by simp [goalHappened], fun h => ?_, by decide⟩
  simp [goalHappened, h]

/-- Witness for C4: a record whose current total equals its baseline
(1+1 fetched, 2 at alert time) resolves to false. -/
theorem goalHappened_strict_witness :
    goalHappened ⟨some 1, some 1⟩ 2 = false :=
  (goalHappened_strict ⟨some 1, some 1⟩ 2).2.1 rfl

/-- One unresolved row of the verifier's candidate batch. -/
structure AlertRow where
  id : ℕ
  fixtureId : ℕ
  goalsAtAlert : ℕ
deriving DecidableEq

/-- Outcome of the per-record external fetch: the axios call throws, the
response carries no fixture, or it carries a fixture with a goals
object. -/
inductive FetchResult where
  | failure : FetchResult
  | emptyResponse : FetchResult
  | ok : FixtureGoals → FetchResult
deriving DecidableEq

/-- The per-record loop of verifyGoalOutcomes: a throwing fetch or an
empty response is logged and skipped (the record stays unresolved), a
fixture with goals yields an update (id, goalHappened); the loop always
continues with the rest of the batch. -/
def processBatch (fetch : ℕ → FetchResult) : List AlertRow → List (ℕ × Bool)
  | [] => []
  | alert :: rest =>
      match fetch alert.fixtureId with
      | FetchResult.ok goals =>
          (alert.id, goalHappened goals alert.goalsAtAlert) :: processBatch fetch rest
      | _ => processBatch fetch rest

lemma processBatch_append (fetch : ℕ → FetchResult) (l₁ l₂ : List AlertRow) :
    processBatch fetch (l₁ ++ l₂) = processBatch fetch l₁ ++ processBatch fetch l₂ := by
  induction l₁ with
  | nil => rfl
  | cons a t ih =>
      simp only [List.cons_append, processBatch]
      cases fetch a.fixtureId <;> simp [ih]

lemma processBatch_mem_of_ok (fetch : ℕ → FetchResult) (l : List AlertRow)
    (b : AlertRow) (g : FixtureGoals) (hb : b ∈ l) (hg : fetch b.fixtureId = FetchResult.ok g) :
    (b.id, goalHappened g b.goalsAtAlert) ∈ processBatch fetch l := by
  induction l with
  | nil => cases hb
  | cons a t ih =>
      rcases List.mem_cons.mp hb with rfl | hb'
      · simp only [processBatch, hg]
        exact List.mem_cons_self _ _
      · simp only [processBatch]
        cases fetch a.fixtureId <;> simp [ih hb']

/-- C9: a fetch failure for one candidate leaves exactly that record
without an update (its singleton batch yields none) and does not abort
the batch: the batch's updates are those of the records around it, and
every other record whose fetch succeeds still receives its update. -/
theorem processBatch_isolates_failure (fetch : ℕ → FetchResult)
    (pre post : List AlertRow) (a : AlertRow)
    (hfail : fetch a.fixtureId = FetchResult.failure) :
    processBatch fetch (pre ++ a :: post) = processBatch fetch (pre ++ post)
  ∧ processBatch fetch [a] = []
  ∧ (∀ b ∈ pre ++ post, ∀ g, fetch b.fixtureId = FetchResult.ok g →
      (b.id, goalHappened g b.goalsAtAlert) ∈ processBatch fetch (pre ++ a :: post)) := by
  have hsingle : processBatch fetch [a] = [] := by
    simp only [processBatch, hfail]
  refine ⟨?_, hsingle, ?_⟩
  · rw [processBatch_append, processBatch_append]
    have : processBatch fetch (a :: post) = processBatch fetch post := by
      simp only [processBatch, hfail]
    rw [this]
  · intro b hb g hg
    exact processBatch_mem_of_ok fetch _ b g
      (by rcases List.mem_append.mp hb with h | h
          · exact List.mem_append.mpr (Or.inl h)
          · exact List.mem_append.mpr (Or.inr (List.mem_cons_of_mem _ h))) hg

/-- A concrete fetch oracle for the C9 witness: fixture 2 fails, the
others return a 1-0 score. -/
def exFetch (fid : ℕ) : FetchResult :=
  if fid = 2 then FetchResult.failure else FetchResult.ok ⟨some 1, some 0⟩

/-- Witness for C9: with fixture 2 failing between fixtures 1 and 3, the
batch's updates are exactly those of fixtures 1 and 3. -/
theorem processBatch_isolates_failure_witness :
    processBatch exFetch [⟨10, 1, 0⟩, ⟨11, 2, 0⟩, ⟨12, 3, 0⟩]
      = processBatch exFetch [⟨10, 1, 0⟩, ⟨12, 3, 0⟩] :=
  (processBatch_isolates_failure exFetch [⟨10, 1, 0⟩] [⟨12, 3, 0⟩] ⟨11, 2, 0⟩
    (by decide)).1

/-! ## Alert policy -/

/-- The pressure-metric inputs of the alert decision. -/
structure PressureInput where
  pressTotal : ℚ
  pressDiff : ℚ
  shotsOnGoal : ℚ
  corners : ℚ

/-- Modelled from the spec: the alert decision rule exists in the
repository only as natural-language agent instructions (footballMonitorAgent
instructions items 3a-3c and the monitorLiveMatches prompt), not as
executable code; it is the OR of the three stated conditions:
pressTotal >= thresholdTotal, or pressDiff >= thresholdDiff and
shotsOnGoal >= 2, or corners >= escanteios10min. -/
def alertPolicy (m : PressureInput) (t : ThresholdRow) : Bool :=
  decide (m.pressTotal ≥ t.thresholdTotal)
  || (decide (m.pressDiff ≥ t.thresholdDiff) && decide (m.shotsOnGoal ≥ 2))
  || decide (m.corners ≥ (t.escanteios10min : ℚ))

/-- C7: the verdict is monotone in the thresholds: with the metrics fixed,
raising any threshold can only change an alert verdict to no-alert, never
turn a no-alert verdict into an alert. -/
theorem alertPolicy_monotone (m : PressureInput) (t t' : ThresholdRow)
    (hT : t.thresholdTotal ≤ t'.thresholdTotal)
    (hD : t.thresholdDiff ≤ t'.thresholdDiff)
    (hE : t.escanteios10min ≤ t'.escanteios10min) :
    (alertPolicy m t' = true → alertPolicy m t = true)
  ∧ (alertPolicy m t = false → alertPolicy m t' = false) := by
  have key : alertPolicy m t' = true → alertPolicy m t = true := by
    simp only [alertPolicy, Bool.or_eq_true, Bool.and_eq_true, decide_eq_true_eq]
    rintro ((h | ⟨h1, h2⟩) | h)
    · exact Or.inl (Or.inl (le_trans hT h))
    · exact Or.inl (Or.inr ⟨le_trans hD h1, h2⟩)
    · exact Or.inr (le_trans (by exact_mod_cast hE) h)
  refine ⟨key, fun h => ?_⟩
  cases hcase : alertPolicy m t' with
  | false => rfl
  | true => rw [key hcase] at h; cases h

/-- Witness for C7: a high-pressure metric set alerting at thresholds
(80,20,4) still alerts at the lower default thresholds (70,15,3). -/
theorem alertPolicy_monotone_witness :
    alertPolicy ⟨100, 5, 1, 0⟩ ⟨70, 15, 3⟩ = true :=
  (alertPolicy_monotone ⟨100, 5, 1, 0⟩ ⟨70, 15, 3⟩ ⟨80, 20, 4⟩
    (by norm_num) (by norm_num) (by norm_num)).1 (by norm_num [alertPolicy])

/-- Witness for C10: at 90% accuracy (factor -0.05) the persisted row is
the unrounded clamped row. -/
theorem performDailyAnalysis_rounding_witness :
    (performDailyAnalysis 9 10 ⟨70, 15, 3⟩).1 = recommendedThresholdsRaw 9 10 ⟨70, 15, 3⟩ :=
  (performDailyAnalysis_rounding 9 10 ⟨70, 15, 3⟩
    (by norm_num [adjustmentFactor, accuracy])).1
